import Mathlib

/-!
# insecure-coding-examples: a verification development

Shallow embedding of

* `exploitable/unsigned_integer_wraparound_unsafe.c` (namespace `UnsignedWraparound`),
* `practice/numeric_truncation_safe.c` (namespace `NumericTruncation`),
* `mitigation/sandbox/sandbox.c` (namespace `Sandbox`).

C `unsigned int` is a natural number below `2 ^ 32`, `int` / `pid_t` an integer,
`signed char` an integer between `-128` and `127`. A C string is the list of
its bytes; a `char *` that may be `NULL` is an `Option` of such a list.
-/

/-! ## exploitable/unsigned_integer_wraparound_unsafe.c -/

namespace UnsignedWraparound

/-- The constant `UINT_MAX` of `<limits.h>` for a 32-bit `unsigned int`. -/
def UINT_MAX : Nat := 4294967295

/-- The function `static bool isSafe(unsigned int first, unsigned int second, unsigned int buf_len)`:
the sum is computed in `unsigned int`, so it is reduced modulo `2 ^ 32`. -/
def isSafe (first second buf_len : Nat) : Bool :=
  let len_sum := (first + second) % 2 ^ 32
  decide (len_sum ≤ buf_len)

/-- The body of `main`: `assert(!isSafe(UINT_MAX, 256, 256))`; `true` when the
assertion holds. -/
def main_assertion : Bool := !isSafe UINT_MAX 256 256

end UnsignedWraparound

/-! ## practice/numeric_truncation_safe.c -/

namespace NumericTruncation

/-- The constant `SCHAR_MAX` of `<limits.h>`. -/
def SCHAR_MAX : Nat := 127

/-- The constant `UINT_MAX` of `<limits.h>` for a 32-bit `unsigned int`. -/
def UINT_MAX : Nat := 4294967295

/-- The cast `(signed char) length` of an `unsigned int`: the low eight bits,
read as a two's complement number. -/
def to_signed_char (n : Nat) : Int :=
  if n % 256 < 128 then ((n % 256 : Nat) : Int) else ((n % 256 : Nat) : Int) - 256

/-- The conversion of a `signed char` operand to `unsigned int` that the
comparison `length == *buf_len` performs (integer promotion, then the usual
arithmetic conversion): reduction modulo `2 ^ 32`. -/
def to_unsigned_int (v : Int) : Nat := (v % 2 ^ 32).toNat

/-- The function `bool isSafe(unsigned int length, signed char * buf_len)`. The second
argument is the value `*buf_len` holds on entry. The result is `none` when
the `assert` fails (the process aborts), and otherwise the returned `bool`
together with the value `*buf_len` holds on return. -/
def isSafe (length : Nat) (buf_len : Int) : Option (Bool × Int) :=
  if length > SCHAR_MAX then
    some (false, buf_len)
  else
    let buf_len := to_signed_char length
    if length = to_unsigned_int buf_len then some (true, buf_len) else none

end NumericTruncation

/-! ## mitigation/sandbox/sandbox.c -/

namespace Sandbox

/-- The enumeration `enum Mode`. -/
inductive Mode where
  | USER_NAMESPACE
  | NETWORK_NAMESPACE
  | PID_NAMESPACE
  | CHROOT_DETATCH
  | SECCOMP_SANDBOX
  | MODE_ERROR
  deriving DecidableEq, Repr

/-- The string a `char *` denotes: the bytes before the first NUL. -/
def cstr (bytes : List Nat) : List Nat := bytes.takeWhile (fun b => b ≠ 0)

/-- The function `strcmp` of `<string.h>` on two byte buffers. Reading at the end of a
list reads the terminating NUL; the comparison stops at the first difference
or at a NUL, and returns the difference of the two bytes there. -/
def strcmp : List Nat → List Nat → Int
  | [], [] => 0
  | [], b :: _ => 0 - (b : Int)
  | a :: _, [] => (a : Int) - 0
  | a :: s1, b :: s2 =>
    if a ≠ b then (a : Int) - (b : Int)
    else if a = 0 then 0
    else strcmp s1 s2

/-- The bytes of the literal `"-user"`. -/
def lit_user : List Nat := [45, 117, 115, 101, 114]

/-- The bytes of the literal `"-network"`. -/
def lit_network : List Nat := [45, 110, 101, 116, 119, 111, 114, 107]

/-- The bytes of the literal `"-pid"`. -/
def lit_pid : List Nat := [45, 112, 105, 100]

/-- The bytes of the literal `"-chroot"`. -/
def lit_chroot : List Nat := [45, 99, 104, 114, 111, 111, 116]

/-- The bytes of the literal `"-seccomp"`. -/
def lit_seccomp : List Nat := [45, 115, 101, 99, 99, 111, 109, 112]

/-- The function `enum Mode getMode(char *mode)`; `none` is the `NULL` pointer. -/
def getMode (mode : Option (List Nat)) : Mode :=
  match mode with
  | none => Mode.MODE_ERROR
  | some m =>
    if strcmp lit_user m = 0 then Mode.USER_NAMESPACE
    else if strcmp lit_network m = 0 then Mode.NETWORK_NAMESPACE
    else if strcmp lit_pid m = 0 then Mode.PID_NAMESPACE
    else if strcmp lit_chroot m = 0 then Mode.CHROOT_DETATCH
    else if strcmp lit_seccomp m = 0 then Mode.SECCOMP_SANDBOX
    else Mode.MODE_ERROR

/-- The five flags the command line recognises, as C strings. -/
def recognized : List (List Nat) :=
  [lit_user, lit_network, lit_pid, lit_chroot, lit_seccomp]

/-! ### Constants of the system headers -/

/-- The constant `EXIT_SUCCESS` of `<stdlib.h>`. -/
def EXIT_SUCCESS : Int := 0

/-- The constant `EXIT_FAILURE` of `<stdlib.h>`. -/
def EXIT_FAILURE : Int := 1

/-- The constant `WUNTRACED` of `<sys/wait.h>`. -/
def WUNTRACED : Nat := 2

/-- The constant `WCONTINUED` of `<sys/wait.h>`. -/
def WCONTINUED : Nat := 8

/-- The constant `PR_SET_NO_NEW_PRIVS` of `<sys/prctl.h>`. -/
def PR_SET_NO_NEW_PRIVS : Nat := 38

/-- The constant `CLONE_NEWUSER` of `<sched.h>`. -/
def CLONE_NEWUSER : Nat := 0x10000000

/-- The constant `CLONE_NEWNET` of `<sched.h>`. -/
def CLONE_NEWNET : Nat := 0x40000000

/-- The constant `CLONE_NEWPID` of `<sched.h>`. -/
def CLONE_NEWPID : Nat := 0x20000000

/-- The constant `INT_MAX` of `<limits.h>` for a 32-bit `int`. -/
def INT_MAX : Int := 2147483647

/-- The value an `int` holds after a result `v` is stored in it: `v` reduced
to the range `-2 ^ 31 .. 2 ^ 31 - 1` (two's complement wraparound; the C
standard leaves signed overflow undefined). -/
def wrap_int (v : Int) : Int := (v + 2 ^ 31) % 2 ^ 32 - 2 ^ 31

/-! ### The environment of the process -/

/-- One node of the list `getifaddrs` builds (`struct ifaddrs`); the list
itself, linked through `ifa_next` and ended by `NULL`, is a `List`. -/
structure ifaddrs where
  ifa_name : String
  ifa_flags : Nat
  deriving DecidableEq, Repr

/-- An argument of a `printf` call. -/
inductive Arg where
  | int (v : Int)
  | str (s : Option String)
  | indeterminate
  deriving DecidableEq, Repr

/-- The functions of `sandbox.c` whose calls the trace records. -/
inductive Func where
  | create_user_namespace
  | create_network_namespace
  | create_pid_namespace
  | detatch_from_filesystem
  | restrict_syscalls
  | wait_for_child
  | explore_state
  | num_network_interfaces
  deriving DecidableEq, Repr

/-- What the process does that is visible from outside, in the order it
does it: entering one of its own functions, and each call of a library or
kernel function that prints, changes state, or ends the process, with the
arguments passed and the value returned. -/
inductive Event where
  | call (f : Func)
  | printf (format : String) (args : List Arg)
  | setfsuid (fsuid : Nat) (ret : Nat)
  | setfsgid (fsgid : Nat) (ret : Nat)
  | getifaddrs (ret : Int)
  | freeifaddrs
  | waitpid (pid : Int) (options : Nat) (ret : Int) (status : Int)
  | fake_fork (flags : Nat) (ret : Int)
  | detach_in_child (ret : Int)
  | prctl (option arg2 : Nat) (ret : Int)
  | exit (status : Int)
  deriving DecidableEq, Repr

/-- The library and kernel functions `sandbox.c` calls, over a state `σ` of
the process whose control flow is followed. A query returns a value; a call
that may change the state also returns the state after it. `fake_fork` and
`detach_in_child` are declared in `fake_fork.h`, which the program includes;
their behaviour is left to the environment. -/
structure Sys (σ : Type) where
  /-- The call `getpid()`. -/
  getpid : σ → Int
  /-- The call `getppid()`. -/
  getppid : σ → Int
  /-- The call `strerror(errno)`. -/
  strerror_errno : σ → String
  /-- The call `waitpid(pid, &status, options)`, given the value `status`
  holds before: the value returned and the value `status` holds after. -/
  waitpid : Int → Int → Nat → σ → (Int × Int) × σ
  /-- The call `getpwuid(uid)`: the field `pw_name`, or `none` for `NULL`. -/
  getpwuid : Nat → σ → Option String
  /-- The call `getgrgid(gid)`: the field `gr_name`, or `none` for `NULL`. -/
  getgrgid : Nat → σ → Option String
  /-- The call `getifaddrs(&ifaddr)`: the list stored in `ifaddr`, or `none`
  when the call returns `-1`. -/
  getifaddrs : σ → Option (List ifaddrs) × σ
  /-- The call `freeifaddrs(ifaddr)`. -/
  freeifaddrs : List ifaddrs → σ → σ
  /-- The call `get_current_dir_name()`; `none` is `NULL`. -/
  get_current_dir_name : σ → Option String
  /-- The call `getresuid(&ruid, &euid, &suid)`: the three ids stored, or
  `none` when the call returns `-1`. -/
  getresuid : σ → Option (Nat × Nat × Nat)
  /-- The call `getresgid(&rgid, &egid, &sgid)`, likewise. -/
  getresgid : σ → Option (Nat × Nat × Nat)
  /-- The call `setfsuid(fsuid)`: the value returned. -/
  setfsuid : Nat → σ → Nat × σ
  /-- The call `setfsgid(fsgid)`: the value returned. -/
  setfsgid : Nat → σ → Nat × σ
  /-- The call `fake_fork(flags)`: the `pid_t` returned. -/
  fake_fork : Nat → σ → Int × σ
  /-- The call `detach_in_child()`: the value returned, zero when it failed. -/
  detach_in_child : σ → Int × σ
  /-- The call `prctl(option, arg2, 0, 0, 0)`: the value returned. -/
  prctl : Nat → Nat → σ → Int × σ

/-- How a function ended: it returned to its caller with a value, or
the process was terminated by `exit(status)`. -/
inductive Ctl (α : Type) where
  | ret (a : α)
  | exit (status : Int)
  deriving DecidableEq, Repr

/-- The result of running a piece of the program from a state: how it ended,
the state after it, and the events it produced, oldest first. -/
structure Res (σ α : Type) where
  ctl : Ctl α
  st : σ
  evs : List Event

/-- A piece of the program: a function of the state it starts in. -/
def Act (σ α : Type) : Type := σ → Res σ α

/-- Return `a` without doing anything. -/
def Act.pure {σ α : Type} (a : α) : Act σ α := fun s => ⟨Ctl.ret a, s, []⟩

/-- Sequencing: run `m`; when the process was terminated, stop there;
otherwise go on with `f` from the state `m` left. -/
def Act.bind {σ α β : Type} (m : Act σ α) (f : α → Act σ β) : Act σ β := fun s =>
  match (m s).ctl with
  | Ctl.exit c => ⟨Ctl.exit c, (m s).st, (m s).evs⟩
  | Ctl.ret a => ⟨(f a (m s).st).ctl, (f a (m s).st).st, (m s).evs ++ (f a (m s).st).evs⟩

instance (σ : Type) : Monad (Act σ) where
  pure := Act.pure
  bind := Act.bind

/-- Record one event. -/
def emit {σ : Type} (e : Event) : Act σ Unit := fun s => ⟨Ctl.ret (), s, [e]⟩

/-- Evaluate a query in the current state. -/
def query {σ α : Type} (f : σ → α) : Act σ α := fun s => ⟨Ctl.ret (f s), s, []⟩

/-- The call `printf(format, args...)`. -/
def printf {σ : Type} (format : String) (args : List Arg) : Act σ Unit :=
  emit (Event.printf format args)

/-- The call `exit(status)`: the process ends, nothing after it runs. -/
def exit {σ α : Type} (status : Int) : Act σ α := fun s =>
  ⟨Ctl.exit status, s, [Event.exit status]⟩

/-- The exit status of the process when `r` is the result of `main`: the
argument of `exit`, or the value `main` returned. -/
def Res.status {σ : Type} (r : Res σ Int) : Int :=
  match r.ctl with
  | Ctl.ret v => v
  | Ctl.exit c => c

/-! ### The functions of `sandbox.c` -/

section Program

variable {σ : Type}

/-- The function `void wait_for_child(pid_t pid)`. -/
def wait_for_child (K : Sys σ) (pid : Int) : Act σ Unit := do
  emit (Event.call Func.wait_for_child)
  if pid = (← query K.getpid) then
    printf "* no child to wait for %d\n" [Arg.int (← query K.getpid)]
  else
    let status : Int := -1
    let (child_pid, _) ← (fun s =>
      match K.waitpid pid status (WUNTRACED ||| WCONTINUED) s with
      | ((r, st), s1) =>
        (⟨Ctl.ret (r, st), s1, [Event.waitpid pid (WUNTRACED ||| WCONTINUED) r st]⟩ :
          Res σ (Int × Int)))
    if child_pid ≠ -1 then
      printf "* child %d exited, parent exiting %d\n"
        [Arg.int child_pid, Arg.int (← query K.getpid)]
      exit EXIT_SUCCESS
    else
      printf "* waitpid returned an error when parent %d waited for child %d: %s\n"
        [Arg.int (← query K.getpid), Arg.int pid, Arg.str (some (← query K.strerror_errno))]
      exit EXIT_FAILURE

/-- The function `char *user_name(uid_t uid)`; `none` is `NULL`. -/
def user_name (K : Sys σ) (uid : Nat) : σ → Option String := K.getpwuid uid

/-- The function `char *group_name(gid_t gid)`; `none` is `NULL`. -/
def group_name (K : Sys σ) (gid : Nat) : σ → Option String := K.getgrgid gid

/-- The loop of `count_interfaces`, from the node `ifa` on, with the value
`num_interfaces` holds when the test `ifa != NULL` is made. -/
def count_interfaces_loop : List ifaddrs → Int → Int
  | [], num_interfaces => num_interfaces
  | _ :: ifa_next, num_interfaces => count_interfaces_loop ifa_next (wrap_int (num_interfaces + 1))

/-- The function `int count_interfaces(struct ifaddrs *ifaddr)`. -/
def count_interfaces (ifaddr : List ifaddrs) : Int := count_interfaces_loop ifaddr 0

/-- The function `int num_network_interfaces(void)`. -/
def num_network_interfaces (K : Sys σ) : Act σ Int := do
  emit (Event.call Func.num_network_interfaces)
  let r ← (fun s =>
    match K.getifaddrs s with
    | (some l, s1) => (⟨Ctl.ret (some l), s1, [Event.getifaddrs 0]⟩ : Res σ (Option (List ifaddrs)))
    | (none, s1) => ⟨Ctl.ret none, s1, [Event.getifaddrs (-1)]⟩)
  match r with
  | none =>
    printf "* getifaddrs failed\n" []
    pure 0
  | some ifaddr =>
    let num_interfaces := count_interfaces ifaddr
    (fun s => (⟨Ctl.ret (), K.freeifaddrs ifaddr s, [Event.freeifaddrs]⟩ : Res σ Unit))
    pure num_interfaces

/-- The two arguments `id, user_name(id)` of a report line of `explore_state`;
`none` is a variable that was never assigned. -/
def id_args (name : Nat → σ → Option String) (id : Option Nat) (s : σ) : List Arg :=
  match id with
  | some v => [Arg.int v, Arg.str (name v s)]
  | none => [Arg.indeterminate, Arg.indeterminate]

/-- The function `void explore_state(int i)`. The heap is not part of the state,
so `free(cwd)` has no counterpart; a variable that `getresuid` or `getresgid`
left unassigned is printed as an indeterminate value. -/
def explore_state (K : Sys σ) (i : Int) : Act σ Unit := do
  emit (Event.call Func.explore_state)
  printf "\n%d. Current\n" [Arg.int i]
  let cwd ← query K.get_current_dir_name
  let uids ← query K.getresuid
  let (ruid, euid, suid) : Option Nat × Option Nat × Option Nat :=
    match uids with
    | some (r, e, sv) => (some r, some e, some sv)
    | none => (none, none, some 0)
  (if uids = none then printf "* getresuid failed\n" [] else pure ())
  let gids ← query K.getresgid
  let (rgid, egid, sgid) : Option Nat × Option Nat × Option Nat :=
    match gids with
    | some (r, e, sv) => (some r, some e, some sv)
    | none => (none, none, some 0)
  (if gids = none then printf "* getresgid failed\n" [] else pure ())
  let fsuid ← (fun s =>
    match K.setfsuid 0 s with
    | (r, s1) => (⟨Ctl.ret r, s1, [Event.setfsuid 0 r]⟩ : Res σ Nat))
  let fsgid ← (fun s =>
    match K.setfsgid 0 s with
    | (r, s1) => (⟨Ctl.ret r, s1, [Event.setfsgid 0 r]⟩ : Res σ Nat))
  printf "--------------------------------------\n" []
  printf "pid  = %d\n" [Arg.int (← query K.getpid)]
  printf "ppid = %d\n" [Arg.int (← query K.getppid)]
  printf "UID real      (%d): %s\n" (← query (id_args (user_name K) ruid))
  printf "UID effective (%d): %s\n" (← query (id_args (user_name K) euid))
  printf "UID saved     (%d): %s\n" (← query (id_args (user_name K) suid))
  printf "UID fs        (%d): %s\n" (← query (id_args (user_name K) (some fsuid)))
  printf "GID real      (%d): %s\n" (← query (id_args (group_name K) rgid))
  printf "GID effective (%d): %s\n" (← query (id_args (group_name K) egid))
  printf "GID saved     (%d): %s\n" (← query (id_args (group_name K) sgid))
  printf "GID fs        (%d): %s\n" (← query (id_args (group_name K) (some fsgid)))
  printf "cwd  = %s\n" [Arg.str cwd]
  printf "num of network interfaces: %d\n" [Arg.int (← num_network_interfaces K)]
  printf "--------------------------------------\n" []

/-- The call `fake_fork(flags)`, recorded in the trace. -/
def fake_fork (K : Sys σ) (flags : Nat) : Act σ Int := fun s =>
  match K.fake_fork flags s with
  | (r, s1) => ⟨Ctl.ret r, s1, [Event.fake_fork flags r]⟩

/-- The function `pid_t create_user_namespace()`. -/
def create_user_namespace (K : Sys σ) : Act σ Int := do
  emit (Event.call Func.create_user_namespace)
  printf "\n%s\n" [Arg.str (some "create_user_namespace")]
  fake_fork K CLONE_NEWUSER

/-- The function `pid_t create_network_namespace()`. -/
def create_network_namespace (K : Sys σ) : Act σ Int := do
  emit (Event.call Func.create_network_namespace)
  printf "\n%s\n" [Arg.str (some "create_network_namespace")]
  fake_fork K CLONE_NEWNET

/-- The function `pid_t create_pid_namespace()`. -/
def create_pid_namespace (K : Sys σ) : Act σ Int := do
  emit (Event.call Func.create_pid_namespace)
  printf "\n%s\n" [Arg.str (some "create_pid_namespace")]
  fake_fork K CLONE_NEWPID

/-- The function `void detatch_from_filesystem()`. -/
def detatch_from_filesystem (K : Sys σ) : Act σ Unit := do
  emit (Event.call Func.detatch_from_filesystem)
  printf "\n%s\n" [Arg.str (some "detatch_from_filesystem")]
  let ok ← (fun s =>
    match K.detach_in_child s with
    | (r, s1) => (⟨Ctl.ret r, s1, [Event.detach_in_child r]⟩ : Res σ Int))
  (if ok = 0 then do
    printf "* failed to detach in child for pid %d\n" [Arg.int (← query K.getpid)]
    exit EXIT_FAILURE
  else pure ())

/-- The function `void restrict_syscalls()`; the block under `#if 0` is not
compiled. -/
def restrict_syscalls (K : Sys σ) : Act σ Unit := do
  emit (Event.call Func.restrict_syscalls)
  printf "\n%s\n" [Arg.str (some "restrict_syscalls")]
  let r ← (fun s =>
    match K.prctl PR_SET_NO_NEW_PRIVS 1 s with
    | (r, s1) => (⟨Ctl.ret r, s1, [Event.prctl PR_SET_NO_NEW_PRIVS 1 r]⟩ : Res σ Int))
  (if r ≠ 0 then printf "* prctl(PR_SET_NO_NEW_PRIVS) failed\n" [] else pure ())

/-- The statement `switch (mode)` in the loop of `main`, entered with the
value `pid` got from `getpid()`: the value `pid` holds after it. -/
def main_switch (K : Sys σ) (mode : Mode) (pid : Int) : Act σ Int :=
  match mode with
  | Mode.USER_NAMESPACE => create_user_namespace K
  | Mode.NETWORK_NAMESPACE => create_network_namespace K
  | Mode.PID_NAMESPACE => create_pid_namespace K
  | Mode.CHROOT_DETATCH => do
    detatch_from_filesystem K
    pure pid
  | Mode.SECCOMP_SANDBOX => do
    restrict_syscalls K
    pure pid
  | Mode.MODE_ERROR => exit EXIT_FAILURE

/-- The two `if` statements after the `switch` in the loop of `main`: the
report of `pid`, and the call of `wait_for_child` when `pid != 0`. -/
def main_sync (K : Sys σ) (pid : Int) : Act σ Unit := do
  (if pid = 0 then do
    printf "Child   - child pid %d parent pid %d\n"
      [Arg.int (← query K.getpid), Arg.int (← query K.getppid)]
  else do
    printf "Parent  - child pid %d parent pid %d\n" [Arg.int pid, Arg.int (← query K.getpid)])
  (if pid ≠ 0 then wait_for_child K pid else pure ())

/-- The body of the loop of `main` for the index `i`, where `arg` is
`argv[i]`. -/
def main_body (K : Sys σ) (i : Nat) (arg : List Nat) : Act σ Unit := do
  let mode := getMode (some arg)
  let pid ← query K.getpid
  explore_state K i
  let pid ← main_switch K mode pid
  main_sync K pid

/-- The loop `for (int i = 1; i < argc; i++)` of `main` from the index `i`
on; the list holds `argv[i], ..., argv[argc - 1]`. -/
def main_loop (K : Sys σ) : Nat → List (List Nat) → Act σ Unit
  | _, [] => pure ()
  | i, arg :: rest => do
    main_body K i arg
    main_loop K (i + 1) rest

/-- The function `int main(int argc, char *argv[])`, with `argc` the length
of `argv`; a `main` that reaches its end returns `0`. -/
def main (K : Sys σ) (argv : List (List Nat)) : Act σ Int := do
  let argc := argv.length
  (if argc < 2 then printf "Usage: ./sandbox [-user|-network|-pid|-chroot|-seccomp]\n" []
  else pure ())
  main_loop K 1 (argv.drop 1)
  pure 0

end Program

/-! ### Reading a trace -/

/-- Whether an event is a call of `waitpid`. -/
def Event.is_waitpid : Event → Bool
  | Event.waitpid _ _ _ _ => true
  | _ => false

/-- Whether an event is a call of `exit`. -/
def Event.is_exit : Event → Bool
  | Event.exit _ => true
  | _ => false

/-- The events the identity report is made of: entering `explore_state` or
`num_network_interfaces`, printing, and the calls `setfsuid`, `setfsgid`,
`getifaddrs`, `freeifaddrs`. -/
def Event.quiet : Event → Bool
  | Event.call Func.explore_state => true
  | Event.call Func.num_network_interfaces => true
  | Event.printf _ _ => true
  | Event.setfsuid _ _ => true
  | Event.setfsgid _ _ => true
  | Event.getifaddrs _ => true
  | Event.freeifaddrs => true
  | _ => false

/-- The five isolation primitives among the functions of the program. -/
def Func.is_isolation : Func → Bool
  | Func.create_user_namespace => true
  | Func.create_network_namespace => true
  | Func.create_pid_namespace => true
  | Func.detatch_from_filesystem => true
  | Func.restrict_syscalls => true
  | _ => false

/-- The isolation primitives a trace enters, in order. -/
def isolation_calls (evs : List Event) : List Func :=
  evs.filterMap fun e =>
    match e with
    | Event.call f => if f.is_isolation then some f else none
    | _ => none

/-- The number of iterations of the loop of `main` a trace starts: every
iteration calls `explore_state` once, and nothing else calls it. -/
def iterations_started (evs : List Event) : Nat :=
  evs.count (Event.call Func.explore_state)

/-- Whether a trace holds a call of `waitpid` that returned something other
than `-1`. -/
def wait_succeeded (evs : List Event) : Bool :=
  evs.any fun e =>
    match e with
    | Event.waitpid _ _ ret _ => decide (ret ≠ -1)
    | _ => false

/-- The exit status agrees with the trace: a piece of the program either
returned without a successful `waitpid`, or ended the process with
`EXIT_SUCCESS` after a successful `waitpid` and with `EXIT_FAILURE` without
one. -/
def Settled {σ α : Type} (r : Res σ α) : Prop :=
  ((∃ a, r.ctl = Ctl.ret a) ∧ wait_succeeded r.evs = false) ∨
    r.ctl = Ctl.exit (if wait_succeeded r.evs = true then EXIT_SUCCESS else EXIT_FAILURE)

/-- The isolation primitive the specification assigns to a mode; none to
`MODE_ERROR`. -/
def selected : Mode → Option Func
  | Mode.USER_NAMESPACE => some Func.create_user_namespace
  | Mode.NETWORK_NAMESPACE => some Func.create_network_namespace
  | Mode.PID_NAMESPACE => some Func.create_pid_namespace
  | Mode.CHROOT_DETATCH => some Func.detatch_from_filesystem
  | Mode.SECCOMP_SANDBOX => some Func.restrict_syscalls
  | Mode.MODE_ERROR => none

/-! ### Concrete environments -/

/-- An environment without state in which every call returns a fixed value:
`getpid` returns `self`, `fake_fork` returns `fork_ret`, `waitpid` returns
`wait_ret` and leaves `status` as it is, `detach_in_child` returns
`detach_ret` and `prctl` returns `prctl_ret`; the identity queries fail. -/
def scripted (self fork_ret wait_ret detach_ret prctl_ret : Int) : Sys Unit where
  getpid := fun _ => self
  getppid := fun _ => 1
  strerror_errno := fun _ => "No child processes"
  waitpid := fun _ status _ s => ((wait_ret, status), s)
  getpwuid := fun _ _ => none
  getgrgid := fun _ _ => none
  getifaddrs := fun s => (none, s)
  freeifaddrs := fun _ s => s
  get_current_dir_name := fun _ => none
  getresuid := fun _ => none
  getresgid := fun _ => none
  setfsuid := fun _ s => (0, s)
  setfsgid := fun _ s => (0, s)
  fake_fork := fun _ s => (fork_ret, s)
  detach_in_child := fun s => (detach_ret, s)
  prctl := fun _ _ s => (prctl_ret, s)

/-- The bytes of `"./sandbox"`, the value of `argv[0]`. -/
def arg0 : List Nat := [46, 47, 115, 97, 110, 100, 98, 111, 120]

/-- The bytes of `"-bogus"`, a flag the program does not recognise. -/
def lit_bogus : List Nat := [45, 98, 111, 103, 117, 115]

/-- The credentials and working directory of a Linux process, with the two
capabilities that decide whether it may change its filesystem ids. -/
structure Proc where
  pid : Int
  ppid : Int
  ruid : Nat
  euid : Nat
  suid : Nat
  fsuid : Nat
  rgid : Nat
  egid : Nat
  sgid : Nat
  fsgid : Nat
  cap_setuid : Bool
  cap_setgid : Bool
  cwd : String
  deriving DecidableEq, Repr

/-- The system call `setfsuid(2)` of Linux: it returns the previous
filesystem user id in every case, and sets the filesystem user id to `uid`
when `uid` is a valid id (not `(uid_t) -1`) and either equals the real,
effective, saved or current filesystem user id of the caller or the caller
has `CAP_SETUID`. -/
def Proc.setfsuid (uid : Nat) (p : Proc) : Nat × Proc :=
  if uid = 4294967295 then (p.fsuid, p)
  else if uid = p.ruid ∨ uid = p.euid ∨ uid = p.suid ∨ uid = p.fsuid ∨ p.cap_setuid = true then
    (p.fsuid, { p with fsuid := uid })
  else (p.fsuid, p)

/-- The system call `setfsgid(2)` of Linux, as `setfsuid` with the group
ids and `CAP_SETGID`. -/
def Proc.setfsgid (gid : Nat) (p : Proc) : Nat × Proc :=
  if gid = 4294967295 then (p.fsgid, p)
  else if gid = p.rgid ∨ gid = p.egid ∨ gid = p.sgid ∨ gid = p.fsgid ∨ p.cap_setgid = true then
    (p.fsgid, { p with fsgid := gid })
  else (p.fsgid, p)

/-- The calls `explore_state` makes, with their Linux semantics over the
credentials of the process: the queries read the state, `setfsuid` and
`setfsgid` are the system calls above, and enumerating the interfaces and
the lookups in the user and group databases leave the state alone. What
the databases and the interface list hold, and the remaining calls, are
taken from `host`. -/
def linux (host : Sys Proc) : Sys Proc where
  getpid := fun p => p.pid
  getppid := fun p => p.ppid
  strerror_errno := host.strerror_errno
  waitpid := host.waitpid
  getpwuid := host.getpwuid
  getgrgid := host.getgrgid
  getifaddrs := fun p => ((host.getifaddrs p).1, p)
  freeifaddrs := fun _ p => p
  get_current_dir_name := fun p => some p.cwd
  getresuid := fun p => some (p.ruid, p.euid, p.suid)
  getresgid := fun p => some (p.rgid, p.egid, p.sgid)
  setfsuid := Proc.setfsuid
  setfsgid := Proc.setfsgid
  fake_fork := host.fake_fork
  detach_in_child := host.detach_in_child
  prctl := host.prctl

/-- A host with an empty user database and one network interface. -/
def bare_host : Sys Proc where
  getpid := fun p => p.pid
  getppid := fun p => p.ppid
  strerror_errno := fun _ => "No child processes"
  waitpid := fun _ status _ p => ((-1, status), p)
  getpwuid := fun _ _ => none
  getgrgid := fun _ _ => none
  getifaddrs := fun p => (some [⟨"lo", 73⟩], p)
  freeifaddrs := fun _ p => p
  get_current_dir_name := fun p => some p.cwd
  getresuid := fun p => some (p.ruid, p.euid, p.suid)
  getresgid := fun p => some (p.rgid, p.egid, p.sgid)
  setfsuid := fun _ p => (p.fsuid, p)
  setfsgid := fun _ p => (p.fsgid, p)
  fake_fork := fun _ p => (-1, p)
  detach_in_child := fun p => (0, p)
  prctl := fun _ _ p => (-1, p)

/-- A privileged process: its real, effective and saved ids are 0 and it
holds `CAP_SETUID` and `CAP_SETGID`; it has lowered its filesystem user and
group ids to 1000, as a file server does before it touches the files of a
user. -/
def privileged_proc : Proc where
  pid := 4321
  ppid := 1
  ruid := 0
  euid := 0
  suid := 0
  fsuid := 1000
  rgid := 0
  egid := 0
  sgid := 0
  fsgid := 1000
  cap_setuid := true
  cap_setgid := true
  cwd := "/srv"

end Sandbox

/-! ## Theorems -/


namespace Sandbox

/-- The byte lists of the five literals are the characters of the flags. -/
theorem lit_bytes :
    lit_user = "-user".toList.map Char.toNat ∧
    lit_network = "-network".toList.map Char.toNat ∧
    lit_pid = "-pid".toList.map Char.toNat ∧
    lit_chroot = "-chroot".toList.map Char.toNat ∧
    lit_seccomp = "-seccomp".toList.map Char.toNat := by
  refine ⟨?_, ?_, ?_, ?_, ?_⟩ <;> decide

/-- The result of `strcmp` is zero exactly when the two buffers denote the same
string. -/
theorem strcmp_eq_zero_iff (s1 s2 : List Nat) :
    strcmp s1 s2 = 0 ↔ cstr s1 = cstr s2 := by
  induction s1 generalizing s2 with
  | nil =>
    cases s2 with
    | nil => simp [strcmp, cstr]
    | cons b s2 =>
      by_cases hb : b = 0
      · simp [strcmp, cstr, hb]
      · simp [strcmp, cstr, hb, List.takeWhile_cons]
  | cons a s1 ih =>
    cases s2 with
    | nil =>
      by_cases ha : a = 0
      · simp [strcmp, cstr, ha]
      · simp [strcmp, cstr, ha, List.takeWhile_cons]
    | cons b s2 =>
      by_cases hab : a = b
      · subst hab
        by_cases ha : a = 0
        · simp [strcmp, cstr, ha]
        · have := ih s2
          simp [strcmp, cstr, ha, List.takeWhile_cons] at this ⊢
          exact this
      · by_cases ha : a = 0
        · by_cases hb : b = 0
          · omega
          · simp [strcmp, cstr, ha, hb, List.takeWhile_cons, hab]
            omega
        · by_cases hb : b = 0
          · simp [strcmp, cstr, ha, hb, List.takeWhile_cons, hab]
          · simp [strcmp, cstr, ha, hb, List.takeWhile_cons, hab]
            omega

/-- The five literals hold no NUL byte. -/
theorem cstr_lits : cstr lit_user = lit_user ∧ cstr lit_network = lit_network ∧
    cstr lit_pid = lit_pid ∧ cstr lit_chroot = lit_chroot ∧ cstr lit_seccomp = lit_seccomp := by
  refine ⟨?_, ?_, ?_, ?_, ?_⟩ <;> decide

/-- The function `getMode` on a non-`NULL` argument, by the string denoted. -/
theorem getMode_some (m : List Nat) :
    getMode (some m) =
      if cstr m = lit_user then Mode.USER_NAMESPACE
      else if cstr m = lit_network then Mode.NETWORK_NAMESPACE
      else if cstr m = lit_pid then Mode.PID_NAMESPACE
      else if cstr m = lit_chroot then Mode.CHROOT_DETATCH
      else if cstr m = lit_seccomp then Mode.SECCOMP_SANDBOX
      else Mode.MODE_ERROR := by
  obtain ⟨h1, h2, h3, h4, h5⟩ := cstr_lits
  simp only [getMode, strcmp_eq_zero_iff, h1, h2, h3, h4, h5, @eq_comm _ (cstr m)]

/-- Claim C1. The function `getMode` is total, and it returns each of the five
non-error modes exactly when the string its argument denotes is the
matching flag, compared byte for byte; for every other argument, the `NULL`
pointer and the empty string included, it returns `MODE_ERROR`. Each
non-error mode is the image of exactly one of the five recognized flags,
and no recognized flag is mapped to `MODE_ERROR`. -/
theorem getMode_total_exact (tok : Option (List Nat)) :
    (getMode tok = Mode.USER_NAMESPACE ↔ tok.map cstr = some lit_user) ∧
    (getMode tok = Mode.NETWORK_NAMESPACE ↔ tok.map cstr = some lit_network) ∧
    (getMode tok = Mode.PID_NAMESPACE ↔ tok.map cstr = some lit_pid) ∧
    (getMode tok = Mode.CHROOT_DETATCH ↔ tok.map cstr = some lit_chroot) ∧
    (getMode tok = Mode.SECCOMP_SANDBOX ↔ tok.map cstr = some lit_seccomp) ∧
    (getMode tok = Mode.MODE_ERROR ↔ ∀ l ∈ recognized, tok.map cstr ≠ some l) ∧
    (∀ m : Mode, m ≠ Mode.MODE_ERROR → ∃! l, l ∈ recognized ∧ getMode (some l) = m) ∧
    (∀ l ∈ recognized, getMode (some l) ≠ Mode.MODE_ERROR) := by
  have hne : lit_user ≠ lit_network ∧ lit_user ≠ lit_pid ∧ lit_user ≠ lit_chroot ∧
      lit_user ≠ lit_seccomp ∧ lit_network ≠ lit_pid ∧ lit_network ≠ lit_chroot ∧
      lit_network ≠ lit_seccomp ∧ lit_pid ≠ lit_chroot ∧ lit_pid ≠ lit_seccomp ∧
      lit_chroot ≠ lit_seccomp := by decide
  obtain ⟨n1, n2, n3, n4, n5, n6, n7, n8, n9, n10⟩ := hne
  have hg : getMode (some lit_user) = Mode.USER_NAMESPACE ∧
      getMode (some lit_network) = Mode.NETWORK_NAMESPACE ∧
      getMode (some lit_pid) = Mode.PID_NAMESPACE ∧
      getMode (some lit_chroot) = Mode.CHROOT_DETATCH ∧
      getMode (some lit_seccomp) = Mode.SECCOMP_SANDBOX := by decide
  obtain ⟨g1, g2, g3, g4, g5⟩ := hg
  refine ⟨?_, ?_, ?_, ?_, ?_, ?_, ?_, ?_⟩
  · cases tok with
    | none => simp [getMode]
    | some m => rw [getMode_some]; simp only [Option.map_some', Option.some.injEq]; split_ifs <;> simp_all
  · cases tok with
    | none => simp [getMode]
    | some m => rw [getMode_some]; simp only [Option.map_some', Option.some.injEq]; split_ifs <;> simp_all
  · cases tok with
    | none => simp [getMode]
    | some m => rw [getMode_some]; simp only [Option.map_some', Option.some.injEq]; split_ifs <;> simp_all
  · cases tok with
    | none => simp [getMode]
    | some m => rw [getMode_some]; simp only [Option.map_some', Option.some.injEq]; split_ifs <;> simp_all
  · cases tok with
    | none => simp [getMode]
    | some m => rw [getMode_some]; simp only [Option.map_some', Option.some.injEq]; split_ifs <;> simp_all
  · cases tok with
    | none => simp [getMode]
    | some m =>
      rw [getMode_some]
      simp only [Option.map_some', recognized, List.mem_cons, List.mem_singleton, ne_eq,
        Option.some.injEq, List.not_mem_nil, or_false, forall_eq_or_imp, forall_eq]
      split_ifs <;> simp_all
  · intro m hm
    cases m with
    | USER_NAMESPACE =>
      refine ⟨lit_user, ⟨by simp [recognized], g1⟩, ?_⟩
      rintro l ⟨hl, hg⟩
      simp only [recognized, List.mem_cons, List.mem_singleton, List.not_mem_nil, or_false] at hl
      rcases hl with rfl | rfl | rfl | rfl | rfl <;> simp_all
    | NETWORK_NAMESPACE =>
      refine ⟨lit_network, ⟨by simp [recognized], g2⟩, ?_⟩
      rintro l ⟨hl, hg⟩
      simp only [recognized, List.mem_cons, List.mem_singleton, List.not_mem_nil, or_false] at hl
      rcases hl with rfl | rfl | rfl | rfl | rfl <;> simp_all
    | PID_NAMESPACE =>
      refine ⟨lit_pid, ⟨by simp [recognized], g3⟩, ?_⟩
      rintro l ⟨hl, hg⟩
      simp only [recognized, List.mem_cons, List.mem_singleton, List.not_mem_nil, or_false] at hl
      rcases hl with rfl | rfl | rfl | rfl | rfl <;> simp_all
    | CHROOT_DETATCH =>
      refine ⟨lit_chroot, ⟨by simp [recognized], g4⟩, ?_⟩
      rintro l ⟨hl, hg⟩
      simp only [recognized, List.mem_cons, List.mem_singleton, List.not_mem_nil, or_false] at hl
      rcases hl with rfl | rfl | rfl | rfl | rfl <;> simp_all
    | SECCOMP_SANDBOX =>
      refine ⟨lit_seccomp, ⟨by simp [recognized], g5⟩, ?_⟩
      rintro l ⟨hl, hg⟩
      simp only [recognized, List.mem_cons, List.mem_singleton, List.not_mem_nil, or_false] at hl
      rcases hl with rfl | rfl | rfl | rfl | rfl <;> simp_all
    | MODE_ERROR => exact absurd rfl hm
  · intro l hl
    simp only [recognized, List.mem_cons, List.mem_singleton, List.not_mem_nil, or_false] at hl
    rcases hl with rfl | rfl | rfl | rfl | rfl <;> simp_all


/-! ### The trace of the identity report and of `wait_for_child` -/

section Lemmas

variable {σ : Type}

/-- The result of `num_network_interfaces` in closed form. -/
theorem num_network_interfaces_eq (K : Sys σ) (s : σ) :
    num_network_interfaces K s =
      ⟨Ctl.ret (match (K.getifaddrs s).1 with
        | none => 0
        | some l => count_interfaces l),
      (match (K.getifaddrs s).1 with
        | none => (K.getifaddrs s).2
        | some l => K.freeifaddrs l (K.getifaddrs s).2),
      (match (K.getifaddrs s).1 with
        | none => [Event.call Func.num_network_interfaces, Event.getifaddrs (-1),
            Event.printf "* getifaddrs failed\n" []]
        | some _ => [Event.call Func.num_network_interfaces, Event.getifaddrs 0,
            Event.freeifaddrs])⟩ := by
  rcases h : K.getifaddrs s with ⟨_ | l, s1⟩ <;>
    simp [num_network_interfaces, bind, Act.bind, emit, printf, h, pure, Act.pure]

/-- The function `explore_state` always returns to its caller. -/
theorem explore_state_ctl (K : Sys σ) (i : Int) (s : σ) :
    (explore_state K i s).ctl = Ctl.ret () := by
  rcases h1 : K.getresuid s with _ | ⟨r, e, sv⟩ <;>
  rcases h2 : K.getresgid s with _ | ⟨r2, e2, sv2⟩ <;>
    simp [explore_state, bind, Act.bind, emit, query, printf, num_network_interfaces_eq, h1, h2,
      pure, Act.pure]

/-- Every event of `explore_state` is an event of the identity report. -/
theorem explore_state_quiet (K : Sys σ) (i : Int) (s : σ) :
    (explore_state K i s).evs.all Event.quiet = true := by
  rcases h1 : K.getresuid s with _ | ⟨r, e, sv⟩ <;>
  rcases h2 : K.getresgid s with _ | ⟨r2, e2, sv2⟩ <;>
    simp [explore_state, bind, Act.bind, emit, query, printf, num_network_interfaces_eq, h1, h2,
      pure, Act.pure] <;> split <;> simp [Event.quiet]

/-- The state `explore_state` leaves: that after `setfsuid(0)`, `setfsgid(0)`,
`getifaddrs` and, when the latter succeeded, `freeifaddrs`. -/
theorem explore_state_st (K : Sys σ) (i : Int) (s : σ) :
    (explore_state K i s).st =
      (match (K.getifaddrs (K.setfsgid 0 (K.setfsuid 0 s).2).2).1 with
        | none => (K.getifaddrs (K.setfsgid 0 (K.setfsuid 0 s).2).2).2
        | some l => K.freeifaddrs l (K.getifaddrs (K.setfsgid 0 (K.setfsuid 0 s).2).2).2) := by
  rcases h1 : K.getresuid s with _ | ⟨r, e, sv⟩ <;>
  rcases h2 : K.getresgid s with _ | ⟨r2, e2, sv2⟩ <;>
    simp [explore_state, bind, Act.bind, emit, query, printf, num_network_interfaces_eq, h1, h2,
      pure, Act.pure]

/-- A trace of report events enters no isolation primitive. -/
theorem quiet_isolation_calls (evs : List Event) (h : evs.all Event.quiet = true) :
    isolation_calls evs = [] := by
  induction evs with
  | nil => rfl
  | cons e evs ih =>
    simp only [List.all_cons, Bool.and_eq_true] at h
    have := ih h.2
    cases e with
    | call f => cases f <;> simp_all [isolation_calls, Event.quiet, Func.is_isolation]
    | _ => simp_all [isolation_calls, Event.quiet]

/-- A trace of report events holds no successful `waitpid`. -/
theorem quiet_wait_succeeded (evs : List Event) (h : evs.all Event.quiet = true) :
    wait_succeeded evs = false := by
  induction evs with
  | nil => rfl
  | cons e evs ih =>
    simp only [List.all_cons, Bool.and_eq_true] at h
    have := ih h.2
    cases e <;> simp_all [wait_succeeded, Event.quiet]

/-- A trace of report events does not enter `wait_for_child`. -/
theorem quiet_no_sync (evs : List Event) (h : evs.all Event.quiet = true) :
    Event.call Func.wait_for_child ∉ evs := by
  intro hm
  have := List.all_eq_true.mp h _ hm
  simp [Event.quiet] at this

/-- How `wait_for_child` ends. -/
theorem wait_for_child_ctl (K : Sys σ) (pid : Int) (s : σ) :
    (wait_for_child K pid s).ctl =
      if pid = K.getpid s then Ctl.ret ()
      else Ctl.exit (if (K.waitpid pid (-1) (WUNTRACED ||| WCONTINUED) s).1.1 = -1
          then EXIT_FAILURE else EXIT_SUCCESS) := by
  by_cases h : pid = K.getpid s
  · simp [wait_for_child, bind, Act.bind, emit, query, printf, h]
  · simp only [wait_for_child, bind, Act.bind, emit, query, printf, h, if_false]
    split_ifs <;> simp_all [Act.bind, query, emit, exit]

/-- The events of `wait_for_child`, in closed form. -/
theorem wait_for_child_evs (K : Sys σ) (pid : Int) (s : σ) :
    (wait_for_child K pid s).evs =
      if pid = K.getpid s then
        [Event.call Func.wait_for_child,
          Event.printf "* no child to wait for %d\n" [Arg.int (K.getpid s)]]
      else if (K.waitpid pid (-1) (WUNTRACED ||| WCONTINUED) s).1.1 = -1 then
        [Event.call Func.wait_for_child,
          Event.waitpid pid (WUNTRACED ||| WCONTINUED)
            (K.waitpid pid (-1) (WUNTRACED ||| WCONTINUED) s).1.1
            (K.waitpid pid (-1) (WUNTRACED ||| WCONTINUED) s).1.2,
          Event.printf "* waitpid returned an error when parent %d waited for child %d: %s\n"
            [Arg.int (K.getpid (K.waitpid pid (-1) (WUNTRACED ||| WCONTINUED) s).2), Arg.int pid,
              Arg.str (some (K.strerror_errno (K.waitpid pid (-1) (WUNTRACED ||| WCONTINUED) s).2))],
          Event.exit EXIT_FAILURE]
      else
        [Event.call Func.wait_for_child,
          Event.waitpid pid (WUNTRACED ||| WCONTINUED)
            (K.waitpid pid (-1) (WUNTRACED ||| WCONTINUED) s).1.1
            (K.waitpid pid (-1) (WUNTRACED ||| WCONTINUED) s).1.2,
          Event.printf "* child %d exited, parent exiting %d\n"
            [Arg.int (K.waitpid pid (-1) (WUNTRACED ||| WCONTINUED) s).1.1,
              Arg.int (K.getpid (K.waitpid pid (-1) (WUNTRACED ||| WCONTINUED) s).2)],
          Event.exit EXIT_SUCCESS] := by
  by_cases h : pid = K.getpid s
  · simp [wait_for_child, bind, Act.bind, emit, query, printf, h]
  · simp only [wait_for_child, bind, Act.bind, emit, query, printf, h, if_false]
    split_ifs <;> simp_all [Act.bind, query, emit, exit]

/-- The state `wait_for_child` leaves. -/
theorem wait_for_child_st (K : Sys σ) (pid : Int) (s : σ) :
    (wait_for_child K pid s).st =
      if pid = K.getpid s then s else (K.waitpid pid (-1) (WUNTRACED ||| WCONTINUED) s).2 := by
  by_cases h : pid = K.getpid s
  · simp [wait_for_child, bind, Act.bind, emit, query, printf, h]
  · simp only [wait_for_child, bind, Act.bind, emit, query, printf, h, if_false]
    split_ifs <;> simp_all [Act.bind, query, emit, exit]

end Lemmas

/-! ### The loop of `main` -/

section Body

variable {σ : Type}

/-- A successful `waitpid` in a concatenation is one in either part. -/
theorem wait_succeeded_append (a b : List Event) :
    wait_succeeded (a ++ b) = (wait_succeeded a || wait_succeeded b) := by
  simp [wait_succeeded, List.any_append]

/-- The isolation calls of a concatenation. -/
theorem isolation_calls_append (a b : List Event) :
    isolation_calls (a ++ b) = isolation_calls a ++ isolation_calls b := by
  simp [isolation_calls, List.filterMap_append]

/-- The events of a sequence: those of the first part, then those of the
second when the first returned. -/
theorem bind_evs {α β : Type} (m : Act σ α) (f : α → Act σ β) (s : σ) :
    (Act.bind m f s).evs =
      (m s).evs ++ (match (m s).ctl with
        | Ctl.ret a => (f a (m s).st).evs
        | Ctl.exit _ => []) := by
  unfold Act.bind
  cases (m s).ctl <;> simp

/-- How a sequence ends. -/
theorem bind_ctl {α β : Type} (m : Act σ α) (f : α → Act σ β) (s : σ) :
    (Act.bind m f s).ctl =
      (match (m s).ctl with
        | Ctl.ret a => (f a (m s).st).ctl
        | Ctl.exit c => Ctl.exit c) := by
  unfold Act.bind
  cases (m s).ctl <;> simp

/-- The predicate `Settled` is kept by sequencing. -/
theorem settled_bind {α β : Type} (m : Act σ α) (f : α → Act σ β) (s : σ)
    (hm : Settled (m s)) (hf : ∀ a, Settled (f a (m s).st)) :
    Settled (Act.bind m f s) := by
  unfold Settled at *
  rw [bind_evs, bind_ctl]
  rcases hm with ⟨⟨a, ha⟩, hw⟩ | he
  · rw [ha]
    simp only [wait_succeeded_append, hw, Bool.false_or]
    exact hf a
  · rw [he]
    simp only [List.append_nil]
    right
    trivial

/-- A piece that returns and produces report events only is settled. -/
theorem settled_quiet {α : Type} (r : Res σ α) (a : α) (hc : r.ctl = Ctl.ret a)
    (hq : r.evs.all Event.quiet = true) : Settled r :=
  Or.inl ⟨⟨a, hc⟩, quiet_wait_succeeded _ hq⟩

/-- The exit status of `wait_for_child` agrees with its trace. -/
theorem wait_for_child_settled (K : Sys σ) (pid : Int) (s : σ) :
    Settled (wait_for_child K pid s) := by
  unfold Settled
  rw [wait_for_child_ctl, wait_for_child_evs]
  split_ifs <;> simp_all [wait_succeeded]

/-- The exit status of the end of the loop body agrees with its trace. -/
theorem main_sync_settled (K : Sys σ) (pid : Int) (s : σ) :
    Settled (main_sync K pid s) := by
  unfold main_sync
  apply settled_bind
  · by_cases hp : pid = 0 <;>
      simp [hp, Settled, bind, Act.bind, query, printf, emit, wait_succeeded]
  · intro _
    by_cases hp : pid = 0
    · simp [hp, Settled, pure, Act.pure, wait_succeeded]
    · simp only [hp, ne_eq, not_false_eq_true, if_true]
      exact wait_for_child_settled K pid _

/-- The exit status of the `switch` agrees with its trace. -/
theorem main_switch_settled (K : Sys σ) (mode : Mode) (pid : Int) (s : σ) :
    Settled (main_switch K mode pid s) := by
  cases mode
  · simp [main_switch, create_user_namespace, fake_fork, Settled, bind, Act.bind, printf, emit,
      wait_succeeded]
  · simp [main_switch, create_network_namespace, fake_fork, Settled, bind, Act.bind, printf, emit,
      wait_succeeded]
  · simp [main_switch, create_pid_namespace, fake_fork, Settled, bind, Act.bind, printf, emit,
      wait_succeeded]
  · by_cases hd : (K.detach_in_child s).1 = 0 <;>
      simp [main_switch, detatch_from_filesystem, Settled, bind, Act.bind, printf, emit, query,
        exit, pure, Act.pure, wait_succeeded, hd]
  · by_cases hr : (K.prctl PR_SET_NO_NEW_PRIVS 1 s).1 = 0 <;>
      simp [main_switch, restrict_syscalls, Settled, bind, Act.bind, printf, emit, query,
        exit, pure, Act.pure, wait_succeeded, hr]
  · simp [main_switch, exit, Settled, wait_succeeded]

/-- The exit status of the loop body agrees with its trace. -/
theorem main_body_settled (K : Sys σ) (i : Nat) (arg : List Nat) (s : σ) :
    Settled (main_body K i arg s) := by
  unfold main_body
  apply settled_bind
  · simp [Settled, query, wait_succeeded]
  · intro pid
    apply settled_bind
    · exact settled_quiet _ () (explore_state_ctl K i _) (explore_state_quiet K i _)
    · intro _
      apply settled_bind
      · exact main_switch_settled K _ _ _
      · intro pid2
        exact main_sync_settled K pid2 _

/-- The exit status of the loop agrees with its trace. -/
theorem main_loop_settled (K : Sys σ) (args : List (List Nat)) :
    ∀ (i : Nat) (s : σ), Settled (main_loop K i args s) := by
  induction args with
  | nil => intro i s; simp [main_loop, pure, Act.pure, Settled, wait_succeeded]
  | cons a rest ih =>
    intro i s
    unfold main_loop
    apply settled_bind
    · exact main_body_settled K i a s
    · intro _
      exact ih _ _


/-- For a token of mode `MODE_ERROR` the loop body runs `explore_state` and
then calls `exit(EXIT_FAILURE)`. -/
theorem main_body_error (K : Sys σ) (i : Nat) (arg : List Nat) (s : σ)
    (hm : getMode (some arg) = Mode.MODE_ERROR) :
    (main_body K i arg s).ctl = Ctl.exit EXIT_FAILURE ∧
      (main_body K i arg s).evs = (explore_state K i s).evs ++ [Event.exit EXIT_FAILURE] := by
  simp [main_body, hm, main_switch, bind, Act.bind, query, explore_state_ctl, exit]

/-- A loop over tokens one of which is unrecognized does not run to its end. -/
theorem main_loop_exits (K : Sys σ) (args : List (List Nat))
    (h : ∃ a ∈ args, getMode (some a) = Mode.MODE_ERROR) :
    ∀ (i : Nat) (s : σ), ∃ c, (main_loop K i args s).ctl = Ctl.exit c := by
  induction args with
  | nil => simp at h
  | cons a rest ih =>
    intro i s
    unfold main_loop
    rw [bind, Monad.toBind]
    simp only [instMonadAct]
    rw [bind_ctl]
    by_cases ha : getMode (some a) = Mode.MODE_ERROR
    · rw [(main_body_error K i a s ha).1]
      exact ⟨_, rfl⟩
    · have hr : ∃ b ∈ rest, getMode (some b) = Mode.MODE_ERROR := by
        obtain ⟨b, hb, hbm⟩ := h
        rcases List.mem_cons.mp hb with rfl | hb
        · exact absurd hbm ha
        · exact ⟨b, hb, hbm⟩
      cases hc : (main_body K i a s).ctl with
      | ret u => exact ih hr _ _
      | exit c => exact ⟨c, rfl⟩

/-- The end of the loop body enters no isolation primitive. -/
theorem main_sync_isolation (K : Sys σ) (pid : Int) (s : σ) :
    isolation_calls (main_sync K pid s).evs = [] := by
  by_cases hp : pid = 0
  · simp [main_sync, hp, bind, Act.bind, query, printf, emit, pure, Act.pure, isolation_calls]
  · simp only [main_sync, hp, bind, Act.bind, query, printf, emit, pure, Act.pure, if_false,
      ne_eq, not_false_eq_true, if_true, wait_for_child_ctl, wait_for_child_evs]
    split_ifs <;> simp [isolation_calls, Func.is_isolation]

/-- The `switch` enters exactly the isolation primitive selected by the mode. -/
theorem main_switch_isolation (K : Sys σ) (mode : Mode) (pid : Int) (s : σ) :
    isolation_calls (main_switch K mode pid s).evs = (selected mode).toList := by
  cases mode
  · simp [main_switch, create_user_namespace, fake_fork, bind, Act.bind, printf, emit,
      isolation_calls, selected, Func.is_isolation]
  · simp [main_switch, create_network_namespace, fake_fork, bind, Act.bind, printf, emit,
      isolation_calls, selected, Func.is_isolation]
  · simp [main_switch, create_pid_namespace, fake_fork, bind, Act.bind, printf, emit,
      isolation_calls, selected, Func.is_isolation]
  · by_cases hd : (K.detach_in_child s).1 = 0 <;>
      simp [main_switch, detatch_from_filesystem, bind, Act.bind, printf, emit, query,
        exit, pure, Act.pure, hd, isolation_calls, selected, Func.is_isolation]
  · by_cases hr : (K.prctl PR_SET_NO_NEW_PRIVS 1 s).1 = 0 <;>
      simp [main_switch, restrict_syscalls, bind, Act.bind, printf, emit, query,
        exit, pure, Act.pure, hr, isolation_calls, selected, Func.is_isolation]
  · simp [main_switch, exit, isolation_calls, selected]

/-- The loop body enters exactly the isolation primitive selected by the mode
of its token. -/
theorem main_body_isolation (K : Sys σ) (i : Nat) (arg : List Nat) (s : σ) :
    isolation_calls (main_body K i arg s).evs = (selected (getMode (some arg))).toList := by
  have hq := quiet_isolation_calls _ (explore_state_quiet K i s)
  simp only [main_body, bind, bind_evs, bind_ctl, query, explore_state_ctl, isolation_calls_append,
    hq, List.nil_append, main_switch_isolation]
  cases (main_switch K (getMode (some arg)) (K.getpid s) (explore_state K i s).st).ctl with
  | ret a => simp [main_sync_isolation]
  | exit c => simp [isolation_calls]

/-- The isolation primitives the loop enters are those selected by an initial
part of its tokens. -/
theorem main_loop_isolation (K : Sys σ) (args : List (List Nat)) :
    ∀ (i : Nat) (s : σ), isolation_calls (main_loop K i args s).evs <+:
      args.filterMap (fun a => selected (getMode (some a))) := by
  induction args with
  | nil => intro i s; simp [main_loop, pure, Act.pure, isolation_calls]
  | cons a rest ih =>
    intro i s
    have hsplit : (a :: rest).filterMap (fun a => selected (getMode (some a))) =
        (selected (getMode (some a))).toList ++
          rest.filterMap (fun a => selected (getMode (some a))) := by
      cases h : selected (getMode (some a)) <;> simp [List.filterMap_cons, h]
    rw [hsplit]
    unfold main_loop
    simp only [bind, bind_evs, isolation_calls_append, main_body_isolation]
    apply (List.prefix_append_right_inj _).mpr
    cases (main_body K i a s).ctl with
    | ret u => exact ih _ _
    | exit c => simp [isolation_calls]


/-- The exit status of `main` agrees with its trace. -/
theorem main_settled (K : Sys σ) (argv : List (List Nat)) (s : σ) :
    Settled (main K argv s) := by
  unfold main
  apply settled_bind
  · by_cases h : argv.length < 2 <;>
      simp [h, Settled, printf, emit, pure, Act.pure, wait_succeeded]
  · intro _
    apply settled_bind
    · exact main_loop_settled K _ _ _
    · intro _
      simp [Settled, pure, Act.pure, wait_succeeded]

/-- How `main` ends, from how its loop ends. -/
theorem main_ctl (K : Sys σ) (argv : List (List Nat)) (s : σ) :
    (main K argv s).ctl =
      match (main_loop K 1 (argv.drop 1) s).ctl with
      | Ctl.ret _ => Ctl.ret 0
      | Ctl.exit c => Ctl.exit c := by
  cases hc : (main_loop K 1 (argv.drop 1) s).ctl <;> by_cases h : argv.length < 2 <;>
    simp [-List.drop_one, main, h, bind, bind_ctl, printf, emit, pure, Act.pure, hc]

/-- The events of `main`: the usage line when `argc < 2`, then those of the
loop. -/
theorem main_evs (K : Sys σ) (argv : List (List Nat)) (s : σ) :
    (main K argv s).evs =
      (if argv.length < 2 then
        [Event.printf "Usage: ./sandbox [-user|-network|-pid|-chroot|-seccomp]\n" []]
      else []) ++ (main_loop K 1 (argv.drop 1) s).evs := by
  cases hc : (main_loop K 1 (argv.drop 1) s).ctl <;> by_cases h : argv.length < 2 <;>
    simp [-List.drop_one, main, h, bind, bind_evs, bind_ctl, printf, emit, pure, Act.pure, hc]

end Body

/-! ### The iterations of a run -/

section Run

variable {σ : Type}

/-- The iterations started by a concatenation. -/
theorem iterations_started_append (a b : List Event) :
    iterations_started (a ++ b) = iterations_started a + iterations_started b := by
  simp [iterations_started, List.count_append]

/-- One call of `explore_state` counts as one iteration. -/
theorem explore_state_started (K : Sys σ) (i : Int) (s : σ) :
    iterations_started (explore_state K i s).evs = 1 := by
  rcases h1 : K.getresuid s with _ | ⟨r, e, sv⟩ <;>
  rcases h2 : K.getresgid s with _ | ⟨r2, e2, sv2⟩ <;>
    simp [explore_state, bind, Act.bind, emit, query, printf, num_network_interfaces_eq, h1, h2,
      pure, Act.pure, iterations_started] <;> split <;> simp [List.count_cons]

/-- The `switch` does not call `explore_state`. -/
theorem main_switch_started (K : Sys σ) (mode : Mode) (pid : Int) (s : σ) :
    iterations_started (main_switch K mode pid s).evs = 0 := by
  cases mode
  · simp [main_switch, create_user_namespace, fake_fork, bind, Act.bind, printf, emit,
      iterations_started]
  · simp [main_switch, create_network_namespace, fake_fork, bind, Act.bind, printf, emit,
      iterations_started]
  · simp [main_switch, create_pid_namespace, fake_fork, bind, Act.bind, printf, emit,
      iterations_started]
  · by_cases hd : (K.detach_in_child s).1 = 0 <;>
      simp [main_switch, detatch_from_filesystem, bind, Act.bind, printf, emit, query,
        exit, pure, Act.pure, hd, iterations_started]
  · by_cases hr : (K.prctl PR_SET_NO_NEW_PRIVS 1 s).1 = 0 <;>
      simp [main_switch, restrict_syscalls, bind, Act.bind, printf, emit, query,
        exit, pure, Act.pure, hr, iterations_started]
  · simp [main_switch, exit, iterations_started]

/-- The end of the loop body does not call `explore_state`. -/
theorem main_sync_started (K : Sys σ) (pid : Int) (s : σ) :
    iterations_started (main_sync K pid s).evs = 0 := by
  by_cases hp : pid = 0
  · simp [main_sync, hp, bind, Act.bind, query, printf, emit, pure, Act.pure, iterations_started]
  · simp only [main_sync, hp, bind, Act.bind, query, printf, emit, pure, Act.pure, if_false,
      ne_eq, not_false_eq_true, if_true, wait_for_child_ctl, wait_for_child_evs]
    split_ifs <;> simp [iterations_started]

/-- The loop body calls `explore_state` exactly once. -/
theorem main_body_started (K : Sys σ) (i : Nat) (arg : List Nat) (s : σ) :
    iterations_started (main_body K i arg s).evs = 1 := by
  simp only [main_body, bind, bind_evs, bind_ctl, query, explore_state_ctl,
    iterations_started_append, explore_state_started, main_switch_started]
  cases (main_switch K (getMode (some arg)) (K.getpid s) (explore_state K i s).st).ctl with
  | ret a =>
    simp only [main_sync_started]
    simp [iterations_started]
  | exit c => simp [iterations_started]


/-- The events and the end of the loop over a token and the tokens after it. -/
theorem main_loop_cons (K : Sys σ) (i : Nat) (a : List Nat) (rest : List (List Nat)) (s : σ) :
    (main_loop K i (a :: rest) s).evs =
      (main_body K i a s).evs ++
        (match (main_body K i a s).ctl with
          | Ctl.ret _ => (main_loop K (i + 1) rest (main_body K i a s).st).evs
          | Ctl.exit _ => []) ∧
    (main_loop K i (a :: rest) s).ctl =
      (match (main_body K i a s).ctl with
        | Ctl.ret _ => (main_loop K (i + 1) rest (main_body K i a s).st).ctl
        | Ctl.exit c => Ctl.exit c) := by
  cases h : (main_body K i a s).ctl <;>
    simp [main_loop, bind, bind_evs, bind_ctl, h]

/-- In a sequence that ends the process, the call of `exit` is the last event,
when this holds of its parts. -/
theorem exit_last_bind {α β : Type} (m : Act σ α) (f : α → Act σ β) (s : σ)
    (hm : ∀ c, (m s).ctl = Ctl.exit c → (m s).evs.getLast? = some (Event.exit c))
    (hf : ∀ a c, (f a (m s).st).ctl = Ctl.exit c →
      (f a (m s).st).evs.getLast? = some (Event.exit c)) :
    ∀ c, (Act.bind m f s).ctl = Ctl.exit c →
      (Act.bind m f s).evs.getLast? = some (Event.exit c) := by
  intro c
  rw [bind_evs, bind_ctl]
  cases h : (m s).ctl with
  | ret a =>
    simp only
    intro hc
    have := hf a c hc
    rw [List.getLast?_append, this]
    rfl
  | exit d =>
    simp only [List.append_nil]
    intro hc
    cases hc
    exact hm _ h

/-- When `wait_for_child` ends the process, its last event is the call of
`exit`. -/
theorem wait_for_child_exit_last (K : Sys σ) (pid : Int) (s : σ) :
    ∀ c, (wait_for_child K pid s).ctl = Ctl.exit c →
      (wait_for_child K pid s).evs.getLast? = some (Event.exit c) := by
  intro c
  rw [wait_for_child_ctl, wait_for_child_evs]
  split_ifs <;> simp

/-- When the end of the loop body ends the process, its last event is the call
of `exit`. -/
theorem main_sync_exit_last (K : Sys σ) (pid : Int) (s : σ) :
    ∀ c, (main_sync K pid s).ctl = Ctl.exit c →
      (main_sync K pid s).evs.getLast? = some (Event.exit c) := by
  unfold main_sync
  apply exit_last_bind
  · intro c
    by_cases hp : pid = 0 <;> simp [hp, bind, Act.bind, query, printf, emit]
  · intro _ c
    by_cases hp : pid = 0
    · simp [hp, pure, Act.pure]
    · simp only [hp, ne_eq, not_false_eq_true, if_true]
      exact wait_for_child_exit_last K pid _ c

/-- When the `switch` ends the process, its last event is the call of `exit`. -/
theorem main_switch_exit_last (K : Sys σ) (mode : Mode) (pid : Int) (s : σ) :
    ∀ c, (main_switch K mode pid s).ctl = Ctl.exit c →
      (main_switch K mode pid s).evs.getLast? = some (Event.exit c) := by
  intro c
  cases mode
  · simp [main_switch, create_user_namespace, fake_fork, bind, Act.bind, printf, emit]
  · simp [main_switch, create_network_namespace, fake_fork, bind, Act.bind, printf, emit]
  · simp [main_switch, create_pid_namespace, fake_fork, bind, Act.bind, printf, emit]
  · by_cases hd : (K.detach_in_child s).1 = 0 <;>
      simp [main_switch, detatch_from_filesystem, bind, Act.bind, printf, emit, query,
        exit, pure, Act.pure, hd]
  · by_cases hr : (K.prctl PR_SET_NO_NEW_PRIVS 1 s).1 = 0 <;>
      simp [main_switch, restrict_syscalls, bind, Act.bind, printf, emit, query,
        exit, pure, Act.pure, hr]
  · simp [main_switch, exit]

/-- When the loop body ends the process, its last event is the call of `exit`. -/
theorem main_body_exit_last (K : Sys σ) (i : Nat) (arg : List Nat) (s : σ) :
    ∀ c, (main_body K i arg s).ctl = Ctl.exit c →
      (main_body K i arg s).evs.getLast? = some (Event.exit c) := by
  unfold main_body
  apply exit_last_bind
  · simp [query]
  · intro pid
    apply exit_last_bind
    · simp [explore_state_ctl]
    · intro _
      apply exit_last_bind
      · exact main_switch_exit_last K _ _ _
      · intro pid2
        exact main_sync_exit_last K pid2 _

/-- When the loop ends the process, its last event is the call of `exit`. -/
theorem main_loop_exit_last (K : Sys σ) (args : List (List Nat)) :
    ∀ (i : Nat) (s : σ) (c : Int), (main_loop K i args s).ctl = Ctl.exit c →
      (main_loop K i args s).evs.getLast? = some (Event.exit c) := by
  induction args with
  | nil => intro i s c; simp [main_loop, pure, Act.pure]
  | cons a rest ih =>
    intro i s
    unfold main_loop
    apply exit_last_bind
    · exact main_body_exit_last K i a s
    · intro _
      exact ih _ _


/-- The primitives selected by a token list, split at its first token. -/
theorem filterMap_selected_cons (a : List Nat) (l : List (List Nat)) :
    (a :: l).filterMap (fun a => selected (getMode (some a))) =
      (selected (getMode (some a))).toList ++
        l.filterMap (fun a => selected (getMode (some a))) := by
  cases h : selected (getMode (some a)) <;> simp [List.filterMap_cons, h]

/-- The loop starts at most one iteration per token, all of them when it runs
to its end and at least one when there is a token; the isolation primitives
it enters are those selected by the tokens of the iterations it starts. -/
theorem main_loop_run (K : Sys σ) (args : List (List Nat)) :
    ∀ (i : Nat) (s : σ),
      iterations_started (main_loop K i args s).evs ≤ args.length ∧
      isolation_calls (main_loop K i args s).evs =
        (args.take (iterations_started (main_loop K i args s).evs)).filterMap
          (fun a => selected (getMode (some a))) ∧
      (∀ u, (main_loop K i args s).ctl = Ctl.ret u →
        iterations_started (main_loop K i args s).evs = args.length) ∧
      (args ≠ [] → 1 ≤ iterations_started (main_loop K i args s).evs) := by
  induction args with
  | nil =>
    intro i s
    simp [main_loop, pure, Act.pure, iterations_started, isolation_calls]
  | cons a rest ih =>
    intro i s
    obtain ⟨he, hc⟩ := main_loop_cons K i a rest s
    have hb := main_body_started K i a s
    have hi := main_body_isolation K i a s
    rw [he, hc, iterations_started_append, isolation_calls_append, hb, hi]
    cases hctl : (main_body K i a s).ctl with
    | ret u =>
      obtain ⟨h1, h2, h3, _⟩ := ih (i + 1) (main_body K i a s).st
      simp only [List.length_cons]
      refine ⟨by omega, ?_, ?_, fun _ => by omega⟩
      · rw [Nat.add_comm 1, List.take_succ_cons, filterMap_selected_cons, h2]
      · intro v hv
        have := h3 v hv
        omega
    | exit c =>
      simp only [List.length_cons]
      have h0 : iterations_started ([] : List Event) = 0 := rfl
      refine ⟨by rw [h0]; omega, ?_, ?_, fun _ => by omega⟩
      · rw [h0]
        simp [isolation_calls, filterMap_selected_cons]
      · intro v hv
        cases hv

/-- An iteration the loop starts on an unrecognized token is its last: after
the events of the iterations before it, the trace holds report events only
and then the call `exit(EXIT_FAILURE)`. -/
theorem main_loop_error (K : Sys σ) (args : List (List Nat)) :
    ∀ (i : Nat) (s : σ) (k : Nat) (a : List Nat), args[k]? = some a →
      getMode (some a) = Mode.MODE_ERROR →
      k < iterations_started (main_loop K i args s).evs →
      iterations_started (main_loop K i args s).evs = k + 1 ∧
      (main_loop K i args s).ctl = Ctl.exit EXIT_FAILURE ∧
      ∃ pre tail, (main_loop K i args s).evs = pre ++ tail ++ [Event.exit EXIT_FAILURE] ∧
        iterations_started pre = k ∧ isolation_calls tail = [] ∧
        Event.call Func.wait_for_child ∉ tail ∧ tail.filter Event.is_waitpid = [] := by
  induction args with
  | nil => intro i s k a h; simp at h
  | cons b rest ih =>
    intro i s k a hk hm hlt
    obtain ⟨he, hc⟩ := main_loop_cons K i b rest s
    have hb := main_body_started K i b s
    rw [he, iterations_started_append, hb] at hlt
    rw [he, hc, iterations_started_append, hb]
    cases k with
    | zero =>
      simp only [List.getElem?_cons_zero, Option.some.injEq] at hk
      subst hk
      obtain ⟨hx, hev⟩ := main_body_error K i b s hm
      have hq := explore_state_quiet K i s
      rw [hx]
      refine ⟨rfl, rfl, [], (explore_state K i s).evs, ?_, rfl,
        quiet_isolation_calls _ hq, quiet_no_sync _ hq, ?_⟩
      · simp [hev]
      · rw [List.filter_eq_nil_iff]
        intro e hmem
        have := List.all_eq_true.mp hq e hmem
        cases e <;> simp_all [Event.quiet, Event.is_waitpid]
    | succ k =>
      simp only [List.getElem?_cons_succ] at hk
      cases hctl : (main_body K i b s).ctl with
      | exit c =>
        rw [hctl] at hlt
        simp [iterations_started] at hlt
      | ret u =>
        rw [hctl] at hlt
        simp only at hlt ⊢
        obtain ⟨h1, h2, pre, tail, h3, h4, h5, h6, h7⟩ :=
          ih (i + 1) (main_body K i b s).st k a hk hm (by omega)
        refine ⟨by omega, h2, (main_body K i b s).evs ++ pre, tail, ?_, ?_, h5, h6, h7⟩
        · rw [h3]
          simp [List.append_assoc]
        · rw [iterations_started_append, hb, h4]
          omega

end Run

/-! ### The claims about `sandbox.c` -/

/-- Claim C2. When `pid` is the pid `getpid` returns, `wait_for_child` returns
to its caller, leaves the state alone, and calls neither `waitpid` nor
`exit`. Otherwise it calls `waitpid` exactly once, with `pid` and the options
`WUNTRACED | WCONTINUED`, and then calls `exit` exactly once, with
`EXIT_FAILURE` when `waitpid` returned `-1` and with `EXIT_SUCCESS` when it
returned anything else. The outcome is the same in any environment in which
`getpid` agrees and `waitpid` fails or succeeds alike, whatever status value
`waitpid` writes there. -/
theorem wait_for_child_contract {σ : Type} (K : Sys σ) (pid : Int) (s : σ) :
    (if pid = K.getpid s then
      (wait_for_child K pid s).ctl = Ctl.ret () ∧
      (wait_for_child K pid s).st = s ∧
      (wait_for_child K pid s).evs.filter Event.is_waitpid = [] ∧
      (wait_for_child K pid s).evs.filter Event.is_exit = []
    else
      (wait_for_child K pid s).evs.filter Event.is_waitpid =
        [Event.waitpid pid (WUNTRACED ||| WCONTINUED)
          (K.waitpid pid (-1) (WUNTRACED ||| WCONTINUED) s).1.1
          (K.waitpid pid (-1) (WUNTRACED ||| WCONTINUED) s).1.2] ∧
      (wait_for_child K pid s).ctl =
        Ctl.exit (if (K.waitpid pid (-1) (WUNTRACED ||| WCONTINUED) s).1.1 = -1
          then EXIT_FAILURE else EXIT_SUCCESS) ∧
      (wait_for_child K pid s).evs.filter Event.is_exit =
        [Event.exit (if (K.waitpid pid (-1) (WUNTRACED ||| WCONTINUED) s).1.1 = -1
          then EXIT_FAILURE else EXIT_SUCCESS)]) ∧
    (∀ K2 : Sys σ, K2.getpid s = K.getpid s →
      ((K2.waitpid pid (-1) (WUNTRACED ||| WCONTINUED) s).1.1 = -1 ↔
        (K.waitpid pid (-1) (WUNTRACED ||| WCONTINUED) s).1.1 = -1) →
      (wait_for_child K2 pid s).ctl = (wait_for_child K pid s).ctl) := by
  refine ⟨?_, ?_⟩
  · rw [wait_for_child_ctl, wait_for_child_evs, wait_for_child_st]
    by_cases h : pid = K.getpid s
    · simp [h, Event.is_waitpid, Event.is_exit]
    · simp only [h, if_false]
      by_cases h1 : (K.waitpid pid (-1) (WUNTRACED ||| WCONTINUED) s).1.1 = -1 <;>
        simp [h1, Event.is_waitpid, Event.is_exit]
  · intro K2 hp hw
    rw [wait_for_child_ctl K2, wait_for_child_ctl K, hp]
    by_cases h : pid = K.getpid s
    · simp [h]
    · simp only [h, if_false]
      by_cases h1 : (K.waitpid pid (-1) (WUNTRACED ||| WCONTINUED) s).1.1 = -1
      · rw [if_pos h1, if_pos (hw.mpr h1)]
      · rw [if_neg h1, if_neg (fun h2 => h1 (hw.mp h2))]

/-- Witness for claim C2: two environments in which `getpid` returns 100 and
`waitpid` succeeds, with different return values and written statuses; the
parent that waits for the child 4242 ends alike in both. -/
theorem wait_for_child_contract_witness :
    (wait_for_child
        ({ scripted 100 0 7 1 0 with waitpid := fun _ _ _ s => ((7, 256), s) } : Sys Unit)
        4242 ()).ctl =
      (wait_for_child (scripted 100 0 4242 1 0) 4242 ()).ctl :=
  (wait_for_child_contract (scripted 100 0 4242 1 0) 4242 ()).2
    { scripted 100 0 7 1 0 with waitpid := fun _ _ _ s => ((7, 256), s) } rfl (by decide)

/-- Claim C3, as amended. For every argument list that holds an unrecognized
token, `main` never completes normally: the process ends through `exit`. Its
status is `EXIT_SUCCESS` when the trace holds a `waitpid` call that returned
something other than `-1` (the process left inside `wait_for_child`, before
it read the unrecognized token) and `EXIT_FAILURE` otherwise; it is
`EXIT_FAILURE` whenever the first token is unrecognized. -/
theorem main_unrecognized_exit {σ : Type} (K : Sys σ) (argv : List (List Nat)) (s : σ)
    (h : ∃ a ∈ argv.drop 1, getMode (some a) = Mode.MODE_ERROR) :
    (main K argv s).ctl = Ctl.exit (main K argv s).status ∧
    (main K argv s).status =
      (if wait_succeeded (main K argv s).evs = true then EXIT_SUCCESS else EXIT_FAILURE) ∧
    (∀ a rest, argv.drop 1 = a :: rest → getMode (some a) = Mode.MODE_ERROR →
      (main K argv s).status = EXIT_FAILURE) := by
  obtain ⟨c, hc⟩ := main_loop_exits K _ h 1 s
  have hctl : (main K argv s).ctl = Ctl.exit c := by rw [main_ctl, hc]
  have hst : (main K argv s).status = c := by simp [Res.status, hctl]
  refine ⟨by rw [hst, hctl], ?_, ?_⟩
  · rcases main_settled K argv s with ⟨⟨a, ha⟩, _⟩ | he
    · rw [hctl] at ha
      cases ha
    · rw [hctl] at he
      rw [hst]
      exact Ctl.exit.inj he
  · intro a rest hd ha
    have hb := (main_body_error K 1 a s ha).1
    have : (main_loop K 1 (argv.drop 1) s).ctl = Ctl.exit EXIT_FAILURE := by
      rw [hd]
      unfold main_loop
      simp only [bind, bind_ctl]
      rw [hb]
    rw [this] at hc
    rw [hst, ← Ctl.exit.inj hc]

/-- Witness for claim C3: the argument list `./sandbox -bogus`. -/
theorem main_unrecognized_exit_witness :
    (∃ a ∈ [arg0, lit_bogus].drop 1, getMode (some a) = Mode.MODE_ERROR) ∧
    (main (scripted 100 0 0 1 0) [arg0, lit_bogus] ()).status = EXIT_FAILURE :=
  ⟨⟨lit_bogus, by decide, by decide⟩,
    (main_unrecognized_exit (scripted 100 0 0 1 0) [arg0, lit_bogus] ()
      ⟨lit_bogus, by decide, by decide⟩).2.2 lit_bogus [] rfl (by decide)⟩

/-- Counterexample to claim C3 as stated: with the arguments `-user -bogus`,
a `fake_fork` that returns the child pid 4242 to the invoked process and a
`waitpid` that succeeds, the invoked process exits with status 0 although
the argument list holds the unrecognized token `-bogus`. -/
theorem main_unrecognized_may_succeed :
    (∃ a ∈ [arg0, lit_user, lit_bogus].drop 1, getMode (some a) = Mode.MODE_ERROR) ∧
    (main (scripted 100 4242 4242 1 0) [arg0, lit_user, lit_bogus] ()).ctl =
      Ctl.exit EXIT_SUCCESS ∧
    (main (scripted 100 4242 4242 1 0) [arg0, lit_user, lit_bogus] ()).status = 0 :=
  ⟨⟨lit_bogus, by decide, by decide⟩, by decide, by decide⟩

/-- Claim C4, evaluated on the code. The function `restrict_syscalls` returns
to its caller whatever `prctl` returns, so a failing no-new-privileges step
does not stop the run: with the arguments `-seccomp -chroot` and a `prctl`
that returns `-1`, the failure is printed, the next token `-chroot` is
dispatched to `detatch_from_filesystem`, and the process ends with status
0. -/
theorem restrict_syscalls_failure_ignored :
    (∀ (σ : Type) (K : Sys σ) (s : σ), (restrict_syscalls K s).ctl = Ctl.ret ()) ∧
    Event.prctl PR_SET_NO_NEW_PRIVS 1 (-1) ∈
      (main (scripted 100 0 0 1 (-1)) [arg0, lit_seccomp, lit_chroot] ()).evs ∧
    Event.printf "* prctl(PR_SET_NO_NEW_PRIVS) failed\n" [] ∈
      (main (scripted 100 0 0 1 (-1)) [arg0, lit_seccomp, lit_chroot] ()).evs ∧
    isolation_calls (main (scripted 100 0 0 1 (-1)) [arg0, lit_seccomp, lit_chroot] ()).evs =
      [Func.restrict_syscalls, Func.detatch_from_filesystem] ∧
    (main (scripted 100 0 0 1 (-1)) [arg0, lit_seccomp, lit_chroot] ()).ctl = Ctl.ret 0 ∧
    (main (scripted 100 0 0 1 (-1)) [arg0, lit_seccomp, lit_chroot] ()).status = 0 := by
  refine ⟨?_, by decide, by decide, by decide, by decide, by decide⟩
  intro σ K s
  by_cases hr : (K.prctl PR_SET_NO_NEW_PRIVS 1 s).1 = 0 <;>
    simp [restrict_syscalls, bind, Act.bind, printf, emit, pure, Act.pure, hr]

/-- Claim C5, evaluated on the code. The end of the loop body enters
`wait_for_child` for every negative `pid`. When `fake_fork` returns `-1` for
a `-user`, `-network` or `-pid` token, the loop of `main` enters
`wait_for_child` with `-1` as its argument, and `wait_for_child` calls
`waitpid(-1, ...)`. -/
theorem failed_factory_reaches_wait :
    (∀ (σ : Type) (K : Sys σ) (pid : Int) (s : σ), pid < 0 →
      Event.call Func.wait_for_child ∈ (main_sync K pid s).evs) ∧
    (Event.fake_fork CLONE_NEWUSER (-1) ∈
        (main (scripted 100 (-1) (-1) 1 0) [arg0, lit_user] ()).evs ∧
      Event.call Func.wait_for_child ∈
        (main (scripted 100 (-1) (-1) 1 0) [arg0, lit_user] ()).evs ∧
      Event.waitpid (-1) (WUNTRACED ||| WCONTINUED) (-1) (-1) ∈
        (main (scripted 100 (-1) (-1) 1 0) [arg0, lit_user] ()).evs) ∧
    (Event.fake_fork CLONE_NEWNET (-1) ∈
        (main (scripted 100 (-1) (-1) 1 0) [arg0, lit_network] ()).evs ∧
      Event.call Func.wait_for_child ∈
        (main (scripted 100 (-1) (-1) 1 0) [arg0, lit_network] ()).evs) ∧
    (Event.fake_fork CLONE_NEWPID (-1) ∈
        (main (scripted 100 (-1) (-1) 1 0) [arg0, lit_pid] ()).evs ∧
      Event.call Func.wait_for_child ∈
        (main (scripted 100 (-1) (-1) 1 0) [arg0, lit_pid] ()).evs) := by
  refine ⟨?_, ⟨?_, ?_, ?_⟩, ⟨?_, ?_⟩, ⟨?_, ?_⟩⟩
  · intro σ K pid s hneg
    have hp : pid ≠ 0 := by omega
    simp only [main_sync, hp, bind, Act.bind, query, printf, emit, pure, Act.pure, if_false,
      ne_eq, not_false_eq_true, if_true, wait_for_child_ctl, wait_for_child_evs]
    split_ifs <;> simp
  all_goals decide

/-- Claim C6. In every iteration of the loop of `main`, the isolation
primitives entered are exactly the one the mode of the token selects:
`create_user_namespace`, `create_network_namespace`, `create_pid_namespace`,
`detatch_from_filesystem` or `restrict_syscalls` for the five recognized
tokens, and none for a token of mode `MODE_ERROR`, for which the iteration
ends the process with `EXIT_FAILURE` without entering `wait_for_child` or
calling `waitpid`. A run of `main` starts an iteration for the first token
whenever there is one, and for every token when it returns; when it ends
the process, the call of `exit` is its last event. The isolation primitives
the run enters are, in order, those selected by the tokens of the iterations
it starts, one for each recognized token. An iteration started on an
unrecognized token is the last one: after the events of the iterations
before it the trace enters no isolation primitive and no `wait_for_child`,
calls no `waitpid`, and ends with `exit(EXIT_FAILURE)`. -/
theorem main_dispatch_exactly_one {σ : Type} (K : Sys σ) (i : Nat) (arg : List Nat)
    (argv : List (List Nat)) (s : σ) :
    isolation_calls (main_body K i arg s).evs = (selected (getMode (some arg))).toList ∧
    (getMode (some arg) = Mode.MODE_ERROR →
      (main_body K i arg s).ctl = Ctl.exit EXIT_FAILURE ∧
      Event.call Func.wait_for_child ∉ (main_body K i arg s).evs ∧
      (main_body K i arg s).evs.filter Event.is_waitpid = []) ∧
    iterations_started (main K argv s).evs ≤ (argv.drop 1).length ∧
    (argv.drop 1 ≠ [] → 1 ≤ iterations_started (main K argv s).evs) ∧
    (∀ v, (main K argv s).ctl = Ctl.ret v →
      v = 0 ∧ iterations_started (main K argv s).evs = (argv.drop 1).length) ∧
    (∀ c, (main K argv s).ctl = Ctl.exit c →
      1 ≤ iterations_started (main K argv s).evs ∧
      (main K argv s).evs.getLast? = some (Event.exit c)) ∧
    isolation_calls (main K argv s).evs =
      ((argv.drop 1).take (iterations_started (main K argv s).evs)).filterMap
        (fun a => selected (getMode (some a))) ∧
    (∀ k a, (argv.drop 1)[k]? = some a → getMode (some a) = Mode.MODE_ERROR →
      k < iterations_started (main K argv s).evs →
      iterations_started (main K argv s).evs = k + 1 ∧
      (main K argv s).ctl = Ctl.exit EXIT_FAILURE ∧
      ∃ pre tail, (main K argv s).evs = pre ++ tail ++ [Event.exit EXIT_FAILURE] ∧
        iterations_started pre = k ∧ isolation_calls tail = [] ∧
        Event.call Func.wait_for_child ∉ tail ∧ tail.filter Event.is_waitpid = []) := by
  have husage_started : iterations_started (if argv.length < 2 then
      [Event.printf "Usage: ./sandbox [-user|-network|-pid|-chroot|-seccomp]\n" []]
    else []) = 0 := by
    split_ifs <;> simp [iterations_started]
  have husage_isolation : isolation_calls (if argv.length < 2 then
      [Event.printf "Usage: ./sandbox [-user|-network|-pid|-chroot|-seccomp]\n" []]
    else []) = [] := by
    split_ifs <;> simp [isolation_calls]
  have hn : iterations_started (main K argv s).evs =
      iterations_started (main_loop K 1 (argv.drop 1) s).evs := by
    rw [main_evs, iterations_started_append, husage_started, Nat.zero_add]
  obtain ⟨hle, hiso, hret, hpos⟩ := main_loop_run K (argv.drop 1) 1 s
  refine ⟨main_body_isolation K i arg s, ?_, ?_, ?_, ?_, ?_, ?_, ?_⟩
  · intro hm
    obtain ⟨hc, he⟩ := main_body_error K i arg s hm
    have hq := explore_state_quiet K i s
    refine ⟨hc, ?_, ?_⟩
    · rw [he]
      intro hmem
      rcases List.mem_append.mp hmem with h1 | h1
      · exact quiet_no_sync _ hq h1
      · simp at h1
    · rw [he, List.filter_append]
      have : (explore_state K i s).evs.filter Event.is_waitpid = [] := by
        rw [List.filter_eq_nil_iff]
        intro e hmem
        have := List.all_eq_true.mp hq e hmem
        cases e <;> simp_all [Event.quiet, Event.is_waitpid]
      simp [this, Event.is_waitpid]
  · rw [hn]
    exact hle
  · rw [hn]
    exact hpos
  · intro v hv
    rw [main_ctl] at hv
    rw [hn]
    cases hl : (main_loop K 1 (argv.drop 1) s).ctl with
    | ret u =>
      rw [hl] at hv
      exact ⟨(Ctl.ret.inj hv).symm, hret u hl⟩
    | exit c =>
      rw [hl] at hv
      cases hv
  · intro c hc
    rw [main_ctl] at hc
    rw [hn]
    cases hl : (main_loop K 1 (argv.drop 1) s).ctl with
    | ret u =>
      rw [hl] at hc
      cases hc
    | exit d =>
      rw [hl] at hc
      have hcd : d = c := Ctl.exit.inj hc
      subst hcd
      have hlast := main_loop_exit_last K (argv.drop 1) 1 s d hl
      have hne : argv.drop 1 ≠ [] := by
        intro hnil
        rw [hnil] at hl
        simp [main_loop, pure, Act.pure] at hl
      refine ⟨hpos hne, ?_⟩
      rw [main_evs, List.getLast?_append, hlast]
      rfl
  · rw [hn, main_evs, isolation_calls_append, husage_isolation, List.nil_append]
    exact hiso
  · intro k a hk hm hlt
    rw [hn] at hlt ⊢
    obtain ⟨h1, h2, pre, tail, h3, h4, h5, h6, h7⟩ :=
      main_loop_error K (argv.drop 1) 1 s k a hk hm hlt
    refine ⟨h1, by rw [main_ctl, h2],
      (if argv.length < 2 then
        [Event.printf "Usage: ./sandbox [-user|-network|-pid|-chroot|-seccomp]\n" []]
      else []) ++ pre, tail, ?_, ?_, h5, h6, h7⟩
    · rw [main_evs, h3]
      simp only [List.append_assoc]
    · rw [iterations_started_append, husage_started, h4, Nat.zero_add]

/-- Witness for claim C6: the run `./sandbox -user -chroot -bogus -pid` of a
process for which `fake_fork` returns 0 starts three iterations, enters
`create_user_namespace` and then `detatch_from_filesystem`, and ends with
`EXIT_FAILURE` at `-bogus`; nothing is entered for `-pid`. -/
theorem main_dispatch_exactly_one_witness :
    iterations_started
        (main (scripted 100 0 0 1 0) [arg0, lit_user, lit_chroot, lit_bogus, lit_pid] ()).evs = 3 ∧
    isolation_calls
        (main (scripted 100 0 0 1 0) [arg0, lit_user, lit_chroot, lit_bogus, lit_pid] ()).evs =
      [Func.create_user_namespace, Func.detatch_from_filesystem] ∧
    (main (scripted 100 0 0 1 0) [arg0, lit_user, lit_chroot, lit_bogus, lit_pid] ()).ctl =
      Ctl.exit EXIT_FAILURE := by
  have hn : iterations_started
      (main (scripted 100 0 0 1 0) [arg0, lit_user, lit_chroot, lit_bogus, lit_pid] ()).evs = 3 := by
    decide
  obtain ⟨_, _, _, _, _, _, hiso, herr⟩ :=
    main_dispatch_exactly_one (scripted 100 0 0 1 0) 3 lit_bogus
      [arg0, lit_user, lit_chroot, lit_bogus, lit_pid] ()
  refine ⟨hn, ?_, (herr 2 lit_bogus (by decide) (by decide) (by rw [hn]; decide)).2.1⟩
  rw [hiso, hn]
  decide

/-- Claim C7, evaluated on the code. Under the Linux semantics of the calls
it makes, `explore_state` leaves the process in the state that
`setfsuid(0)` followed by `setfsgid(0)` produce. For a privileged process
whose filesystem ids are 1000, the filesystem user id and the filesystem
group id are 0 afterwards: the state is changed. -/
theorem explore_state_changes_fsids (host : Sys Proc) (i : Int) (p : Proc) :
    (explore_state (linux host) i p).st = (Proc.setfsgid 0 (Proc.setfsuid 0 p).2).2 ∧
    privileged_proc.fsuid = 1000 ∧ privileged_proc.fsgid = 1000 ∧
    (explore_state (linux bare_host) 1 privileged_proc).st.fsuid = 0 ∧
    (explore_state (linux bare_host) 1 privileged_proc).st.fsgid = 0 ∧
    (explore_state (linux bare_host) 1 privileged_proc).st ≠ privileged_proc := by
  refine ⟨?_, by decide, by decide, by decide, by decide, by decide⟩
  rw [explore_state_st]
  simp only [linux]
  split <;> rfl

/-- Incrementing a wrapped counter is incrementing the counter, then wrapping. -/
theorem wrap_int_succ (n : Int) : wrap_int (wrap_int n + 1) = wrap_int (n + 1) := by
  unfold wrap_int
  omega

/-- The loop of `count_interfaces` adds the length of the list to the counter,
modulo the range of `int`. -/
theorem count_interfaces_loop_eq (l : List ifaddrs) :
    ∀ n : Int, count_interfaces_loop l (wrap_int n) = wrap_int (n + l.length) := by
  induction l with
  | nil => intro n; simp [count_interfaces_loop]
  | cons a l ih =>
    intro n
    simp only [count_interfaces_loop, wrap_int_succ, ih, List.length_cons, Nat.cast_add,
      Nat.cast_one]
    congr 1
    omega

/-- The value `count_interfaces` returns is the length of the list reduced to
the range of `int`. -/
theorem count_interfaces_eq (l : List ifaddrs) :
    count_interfaces l = wrap_int l.length := by
  have h0 : wrap_int 0 = 0 := by decide
  have := count_interfaces_loop_eq l 0
  rw [h0] at this
  simpa [count_interfaces] using this

/-- Claim C8, as amended. For every interface list of at most `INT_MAX`
entries, `count_interfaces` returns the number of entries of the list;
`num_network_interfaces` returns that count to its caller when `getifaddrs`
stores the list, and returns 0 to its caller, without ending the process,
when `getifaddrs` fails. -/
theorem count_interfaces_within_int {σ : Type} (K : Sys σ) (s : σ) (l : List ifaddrs)
    (h : (l.length : Int) ≤ INT_MAX) :
    count_interfaces l = l.length ∧
    ((K.getifaddrs s).1 = some l →
      (num_network_interfaces K s).ctl = Ctl.ret (l.length : Int)) ∧
    ((K.getifaddrs s).1 = none → (num_network_interfaces K s).ctl = Ctl.ret 0) := by
  have hc : count_interfaces l = l.length := by
    rw [count_interfaces_eq]
    unfold wrap_int
    unfold INT_MAX at h
    omega
  refine ⟨hc, ?_, ?_⟩
  · intro hs
    rw [num_network_interfaces_eq]
    simp [hs, hc]
  · intro hn
    rw [num_network_interfaces_eq]
    simp [hn]

/-- Witness for claim C8: a list of two interfaces. -/
theorem count_interfaces_within_int_witness :
    count_interfaces [⟨"lo", 73⟩, ⟨"eth0", 4163⟩] = 2 :=
  (count_interfaces_within_int bare_host privileged_proc [⟨"lo", 73⟩, ⟨"eth0", 4163⟩]
    (by decide)).1

/-- Counterexample to claim C8 as stated: for a list of `2 ^ 31` entries the
`int` that `count_interfaces` returns is not the number of entries. -/
theorem count_interfaces_overflow :
    count_interfaces (List.replicate (2 ^ 31) ⟨"lo", 73⟩) ≠
      ((List.replicate (2 ^ 31) (⟨"lo", 73⟩ : ifaddrs)).length : Int) ∧
    count_interfaces (List.replicate (2 ^ 31) ⟨"lo", 73⟩) = -2147483648 := by
  rw [count_interfaces_eq, List.length_replicate]
  constructor <;> decide

end Sandbox

namespace UnsignedWraparound

/-- Claim C9, evaluated on the code. The call `isSafe(UINT_MAX, 256, 256)`
returns `true` although the sum `UINT_MAX + 256` exceeds 256, because the sum
wraps around to 255; the assertion in `main` fails. -/
theorem isSafe_accepts_wrapped_sum :
    isSafe UINT_MAX 256 256 = true ∧ (UINT_MAX + 256) % 2 ^ 32 = 255 ∧
    ¬ (UINT_MAX + 256 ≤ 256) ∧ main_assertion = false := by
  refine ⟨?_, ?_, ?_, ?_⟩ <;> decide

end UnsignedWraparound

namespace NumericTruncation

/-- Claim C10. For every `length`, so for every 32-bit unsigned one, and
every value of `*buf_len`, `isSafe` ends without failing its assertion; it
returns `true` exactly when `length <= SCHAR_MAX`; when it returns `true`
the `signed char` stored in `*buf_len` equals `length`, and when it returns
`false` `*buf_len` is left as it was. The call of the test,
`isSafe(UINT_MAX, &buf_len)` with `buf_len` equal to 0, returns `false` and
leaves `buf_len` at 0. -/
theorem isSafe_never_truncates (length : Nat) (buf_len : Int) :
    isSafe length buf_len =
      some (decide (length ≤ SCHAR_MAX),
        if length ≤ SCHAR_MAX then (length : Int) else buf_len) ∧
    isSafe UINT_MAX 0 = some (false, 0) := by
  refine ⟨?_, by decide⟩
  unfold isSafe SCHAR_MAX
  by_cases hl : length > 127
  · have : ¬ length ≤ 127 := by omega
    simp [hl, this]
  · have hle : length ≤ 127 := by omega
    have h1 : to_signed_char length = (length : Int) := by
      unfold to_signed_char
      have : length % 256 = length := by omega
      rw [this]
      simp
      omega
    have h2 : to_unsigned_int (length : Int) = length := by
      unfold to_unsigned_int
      omega
    simp [hl, hle, h1, h2]

end NumericTruncation
